import Mathlib

/-
Verification development for the sandboxed WASM execution core
(runtime/core/src/runtime.rs: internal_run_vm and start_runtime).

The execution of one call is modelled as a pure function of the call data,
the runtime context (the compiled module, of which only the export list is
relevant here), and a record of the outcomes of every fallible or
nondeterministic external interaction of the call (environment build,
import-table creation, instantiation, memory lookup, environment
initialization, the entry-function invocation, the completion-channel
event observed by the supervisor, the join outcome, and the two pipe
drains). Each theorem quantifies over that record, so it covers every
schedule the real supervisor can observe.
-/

namespace SedaVm

/-- Error taxonomy of the runtime: the VmResultStatus variants produced in
runtime.rs (the enum itself lives in the SDK crate of the repository; the
variants and the points where each is raised are taken from runtime.rs). -/
inductive VmResultStatus where
  | WasiEnvInitializeFailure
  | FailedToCreateVMImports
  | FailedToCreateWasmerInstance (detail : String)
  | FailedToGetWASMMemory
  | FailedToGetWASMFn
  | ExecutionTimeout
  | FailedToJoinThread
  | FailedToConvertVMPipeToString
  | FailedToGetWASMStderr
  deriving DecidableEq, Repr

/-- ExecutionResult from the SDK: a result that fails with a VmResultStatus. -/
abbrev ExecutionResult (α : Type) := Except VmResultStatus α

/-- Modelled from the spec: VmCallData lives in the SDK crate, which is not
among the provided source files. Spec section 6: start_func is an optional
string defaulting to the conventional start symbol, args an ordered
sequence of strings, envs a mapping of names to values. Fields the core
does not interpret are omitted because runtime.rs only forwards them. -/
structure VmCallData where
  start_func : Option String
  args : List String
  envs : List (String × String)
  deriving DecidableEq, Repr

/-- Modelled from the spec: ExitInfo from the SDK crate, spec section 6:
an integer exit code and a human readable exit message. -/
structure ExitInfo where
  exit_code : Int
  exit_message : String
  deriving DecidableEq, Repr

/-- Modelled from the spec: VmResult (the result envelope) from the SDK
crate, spec section 6: ordered stdout chunks, ordered stderr chunks, exit
info, optional result byte sequence. Bytes are modelled as natural
numbers. -/
structure VmResult where
  stdout : List String
  stderr : List String
  exit_info : ExitInfo
  result : Option (List Nat)
  deriving DecidableEq, Repr

/-- Modelled from the spec: the conversion of a VmResultStatus into ExitInfo
(error.into() at runtime.rs line 164) lives in the SDK crate, which is not
among the provided source files. The spec says a typed error yields exit
info derived from the error kind, with a descriptive exit message and a
non-success exit code; each kind is mapped to a distinct nonzero code and a
message describing the kind. -/
def vmResultStatusToExitInfo : VmResultStatus → ExitInfo
  | .WasiEnvInitializeFailure => ⟨2, "Failed to build the WASI environment"⟩
  | .FailedToCreateVMImports => ⟨3, "Failed to create the VM imports"⟩
  | .FailedToCreateWasmerInstance d => ⟨4, "Failed to create the Wasmer instance: " ++ d⟩
  | .FailedToGetWASMMemory => ⟨5, "Failed to get the WASM memory export"⟩
  | .FailedToGetWASMFn => ⟨6, "Failed to get the WASM function"⟩
  | .ExecutionTimeout => ⟨7, "Execution timed out"⟩
  | .FailedToJoinThread => ⟨8, "Failed to join the execution thread"⟩
  | .FailedToConvertVMPipeToString => ⟨9, "Failed to convert the VM pipe output to a string"⟩
  | .FailedToGetWASMStderr => ⟨10, "Failed to get the WASM stderr"⟩

/-- Runtime context for one call: of the compiled module and store, only
the set of exported function names is observable by runtime.rs (through
exports.get_function). -/
structure RuntimeContext where
  exports : List String
  deriving DecidableEq, Repr

/-- Outcome of invoking the entry function (main_func.call at line 79):
either a normal return, or a failure whose as_exit_code view (lines 86-93)
may or may not carry a WASI exit code. -/
inductive CallOutcome where
  | ok : CallOutcome
  | err : Option Int → CallOutcome
  deriving DecidableEq, Repr

/-- Completion-channel event observed by the supervisor at
receiver.recv_timeout (line 106): a signal received within the deadline, the
deadline elapsing with no signal, or the channel disconnecting because the
unit terminated without sending. -/
inductive RecvEvent where
  | received : RecvEvent
  | timeout : RecvEvent
  | disconnected : RecvEvent
  deriving DecidableEq, Repr

deriving instance DecidableEq for Except

/-- Record of the outcomes of every fallible or nondeterministic external
interaction of one call, in the order runtime.rs performs them. Drains are
modelled as the list of flush chunks the guest wrote to the pipe; the
single read_to_string call observes their concatenation. -/
structure HostEnv where
  envBuildOk : Bool
  importsOk : Bool
  instantiation : Except String Unit
  memoryExportOk : Bool
  envInitOk : Bool
  callOutcome : CallOutcome
  resultBuffer : List Nat
  recv : RecvEvent
  joinOk : Bool
  stdoutDrain : Except Unit (List String)
  stderrDrain : Except Unit (List String)
  deriving DecidableEq, Repr

/-- Body of the execution unit (the closure spawned at lines 29-102 of
runtime.rs): build the WASI environment (line 45, WasiEnvInitializeFailure),
create imports (line 56), instantiate (line 59, carrying the diagnostic
text), bind the exported memory (line 66), finish environment
initialization (line 72, mapped to FailedToGetWASMFn in the source),
resolve the entry function (line 77, FailedToGetWASMFn), invoke it, derive
the exit code (lines 84-93: zero unless the failure carries a WASI exit
code), and return the shared result buffer with that code. -/
def runUnit (call_data : VmCallData) (context : RuntimeContext) (h : HostEnv) :
    ExecutionResult (List Nat × Int) :=
  let function_name := call_data.start_func.getD "_start"
  if h.envBuildOk = false then .error .WasiEnvInitializeFailure
  else if h.importsOk = false then .error .FailedToCreateVMImports
  else
    match h.instantiation with
    | .error e => .error (.FailedToCreateWasmerInstance e)
    | .ok _ =>
      if h.memoryExportOk = false then .error .FailedToGetWASMMemory
      else if h.envInitOk = false then .error .FailedToGetWASMFn
      else if function_name ∈ context.exports then
        let exit_code : Int :=
          match h.callOutcome with
          | .ok => 0
          | .err none => 0
          | .err (some c) => c
        .ok (h.resultBuffer, exit_code)
      else .error .FailedToGetWASMFn

/-- True exactly when control in the execution unit reaches
main_func.call (line 79): every earlier fallible step succeeded and the
entry function resolved. -/
def unitInvokesEntry (call_data : VmCallData) (context : RuntimeContext) (h : HostEnv) : Bool :=
  let function_name := call_data.start_func.getD "_start"
  h.envBuildOk && h.importsOk &&
    (match h.instantiation with | .ok _ => true | .error _ => false) &&
    h.memoryExportOk && h.envInitOk && decide (function_name ∈ context.exports)

/-- Deadline constant from line 24 of runtime.rs:
Duration::from_nanos(100_000_000_000), in nanoseconds. -/
def dr_timeout_ns : Nat := 100000000000

/-- Deadline used by the supervisor for a given call: line 24 computes the
constant before and independently of the call data, the context and any
guest behavior. -/
def deadlineFor (_call_data : VmCallData) (_context : RuntimeContext) (_h : HostEnv) : Nat :=
  dr_timeout_ns

/-- Supervisor reconciliation (lines 106-117): a received signal or a
disconnect both join the unit and adopt its outcome (a failed join becomes
FailedToJoinThread); an elapsed deadline becomes ExecutionTimeout without
joining. -/
def superviseRecv (body : ExecutionResult (List Nat × Int)) (recv : RecvEvent)
    (joinOk : Bool) : ExecutionResult (List Nat × Int) :=
  match recv with
  | .received => if joinOk then body else .error .FailedToJoinThread
  | .timeout => .error .ExecutionTimeout
  | .disconnected => if joinOk then body else .error .FailedToJoinThread

/-- internal_run_vm (lines 9-139): run the unit, reconcile with the
completion channel, then drain the stdout pipe (a failure becomes
FailedToConvertVMPipeToString and returns at once, before the stderr drain)
and the stderr pipe (a failure becomes FailedToGetWASMStderr); each
non-empty drained buffer is pushed as one chunk onto the caller-supplied
ordered sequence. -/
def internal_run_vm (call_data : VmCallData) (context : RuntimeContext) (h : HostEnv)
    (stdout stderr : List String) :
    ExecutionResult (List Nat × Int) × List String × List String :=
  let execution_result := superviseRecv (runUnit call_data context h) h.recv h.joinOk
  match h.stdoutDrain with
  | .error _ => (.error .FailedToConvertVMPipeToString, stdout, stderr)
  | .ok outFlushes =>
    let stdout_buffer := String.join outFlushes
    let stdout1 := if stdout_buffer.isEmpty then stdout else stdout ++ [stdout_buffer]
    match h.stderrDrain with
    | .error _ => (.error .FailedToGetWASMStderr, stdout1, stderr)
    | .ok errFlushes =>
      let stderr_buffer := String.join errFlushes
      let stderr1 := if stderr_buffer.isEmpty then stderr else stderr ++ [stderr_buffer]
      (execution_result, stdout1, stderr1)

/-- Is a byte a UTF-8 continuation byte (0x80..=0xBF). -/
def isCont (b : Nat) : Bool := decide (0x80 ≤ b ∧ b ≤ 0xBF)

/-- Admissible second byte of a three-byte UTF-8 sequence led by b. -/
def valid3Second (b c : Nat) : Bool :=
  if b = 0xE0 then decide (0xA0 ≤ c ∧ c ≤ 0xBF)
  else if b = 0xED then decide (0x80 ≤ c ∧ c ≤ 0x9F)
  else isCont c

/-- Admissible second byte of a four-byte UTF-8 sequence led by b. -/
def valid4Second (b c : Nat) : Bool :=
  if b = 0xF0 then decide (0x90 ≤ c ∧ c ≤ 0xBF)
  else if b = 0xF4 then decide (0x80 ≤ c ∧ c ≤ 0x8F)
  else isCont c

/-- Unicode replacement character U+FFFD. -/
def replacementChar : Char := Char.ofNat 0xFFFD

/-- Lossy UTF-8 decoding of a byte sequence, modelling the Rust standard
library String::from_utf8_lossy used at line 155 of runtime.rs: well-formed
sequences decode to their scalar value, each maximal invalid subpart is
replaced by U+FFFD. -/
def utf8LossyChars : List Nat → List Char
  | [] => []
  | b :: bs =>
    if b < 0x80 then Char.ofNat b :: utf8LossyChars bs
    else if decide (0xC2 ≤ b ∧ b ≤ 0xDF) then
      match bs with
      | [] => [replacementChar]
      | c :: bs2 =>
        if isCont c then
          Char.ofNat ((b - 0xC0) * 0x40 + (c - 0x80)) :: utf8LossyChars bs2
        else replacementChar :: utf8LossyChars (c :: bs2)
    else if decide (0xE0 ≤ b ∧ b ≤ 0xEF) then
      match bs with
      | [] => [replacementChar]
      | c :: bs2 =>
        if valid3Second b c then
          match bs2 with
          | [] => [replacementChar]
          | d :: bs3 =>
            if isCont d then
              Char.ofNat ((b - 0xE0) * 0x1000 + (c - 0x80) * 0x40 + (d - 0x80)) ::
                utf8LossyChars bs3
            else replacementChar :: utf8LossyChars (d :: bs3)
        else replacementChar :: utf8LossyChars (c :: bs2)
    else if decide (0xF0 ≤ b ∧ b ≤ 0xF4) then
      match bs with
      | [] => [replacementChar]
      | c :: bs2 =>
        if valid4Second b c then
          match bs2 with
          | [] => [replacementChar]
          | d :: bs3 =>
            if isCont d then
              match bs3 with
              | [] => [replacementChar]
              | e :: bs4 =>
                if isCont e then
                  Char.ofNat ((b - 0xF0) * 0x40000 + (c - 0x80) * 0x1000 +
                      (d - 0x80) * 0x40 + (e - 0x80)) :: utf8LossyChars bs4
                else replacementChar :: utf8LossyChars (e :: bs4)
            else replacementChar :: utf8LossyChars (d :: bs3)
        else replacementChar :: utf8LossyChars (c :: bs2)
    else replacementChar :: utf8LossyChars bs

/-- Lossy UTF-8 decoding to a string (String::from_utf8_lossy). -/
def from_utf8_lossy (bs : List Nat) : String := String.mk (utf8LossyChars bs)

/-- Result assembly (the match at lines 147-166 of start_runtime): a
successful outcome yields the captured streams, the exit code, the message
Ok for exit code zero and the lossy decoding of the result bytes otherwise,
and the result bytes; a typed error yields the captured streams, no result,
and exit info derived from the error. -/
def assembleResult (t : ExecutionResult (List Nat × Int) × List String × List String) :
    VmResult :=
  match t with
  | (.ok (result, exit_code), stdout, stderr) =>
    { stdout := stdout
      stderr := stderr
      exit_info :=
        { exit_code := exit_code
          exit_message := if exit_code = 0 then "Ok" else from_utf8_lossy result }
      result := some result }
  | (.error error, stdout, stderr) =>
    { stdout := stdout
      stderr := stderr
      result := none
      exit_info := vmResultStatusToExitInfo error }

/-- start_runtime (lines 141-167): run internal_run_vm with fresh empty
stream sequences and assemble the envelope. -/
def start_runtime (call_data : VmCallData) (context : RuntimeContext) (h : HostEnv) :
    VmResult :=
  assembleResult (internal_run_vm call_data context h [] [])

/-- Sample call data with no explicit entry point. -/
def cdDefault : VmCallData := { start_func := none, args := [], envs := [] }

/-- Sample context whose module exports the conventional start symbol. -/
def ctxStart : RuntimeContext := { exports := ["_start"] }

/-- Sample context whose module does not export the requested entry point. -/
def ctxNoEntry : RuntimeContext := { exports := ["other_func"] }

/-- Sample host record in which every external interaction succeeds. -/
def hostOk : HostEnv :=
  { envBuildOk := true
    importsOk := true
    instantiation := .ok ()
    memoryExportOk := true
    envInitOk := true
    callOutcome := .ok
    resultBuffer := []
    recv := .received
    joinOk := true
    stdoutDrain := .ok []
    stderrDrain := .ok [] }

/-- Successful run that leaves bytes in the shared result buffer. -/
def hostBytesOk : HostEnv := { hostOk with resultBuffer := [1, 2, 3] }

/-- Run whose entry invocation fails without a process-exit semantic. -/
def hostNoExit : HostEnv := { hostOk with callOutcome := .err none }

/-- Run whose entry invocation traps with exit code 3 after recording the
bytes of the text hi in the result buffer. -/
def hostTrap : HostEnv :=
  { hostOk with callOutcome := .err (some 3), resultBuffer := [104, 105] }

/-- Run in which the supervisor observes the deadline elapsing. -/
def hostTimeout : HostEnv := { hostOk with recv := .timeout }

/-- Run in which the unit terminated without signaling, so the supervisor
observes a channel disconnect. -/
def hostDisc : HostEnv := { hostOk with recv := .disconnected }

/-- Run whose guest flushed the chunks a and b to stdout and flushed an
empty chunk to stderr. -/
def hostFlushes : HostEnv :=
  { hostOk with stdoutDrain := .ok ["a", "b"], stderrDrain := .ok [""] }

/-- Run in which finishing the environment initialization step fails. -/
def hostEnvInitStepFails : HostEnv := { hostOk with envInitOk := false }

/-- Run in which reading the host-facing stdout pipe fails while the stderr
pipe holds a pending chunk. -/
def hostPipeFail : HostEnv :=
  { hostOk with stdoutDrain := .error (), stderrDrain := .ok ["x"] }

/-- Decoding an empty byte sequence yields the empty string. -/
theorem from_utf8_lossy_nil : from_utf8_lossy [] = "" := rfl

/-- Computation of internal_run_vm when both pipe drains succeed: the
reconciled unit outcome is returned together with the streams, each
extended by one chunk exactly when the drained buffer is non-empty. -/
theorem internal_run_vm_drains_ok (cd : VmCallData) (ctx : RuntimeContext) (h : HostEnv)
    (outF errF : List String) (stdout0 stderr0 : List String)
    (hso : h.stdoutDrain = .ok outF) (hse : h.stderrDrain = .ok errF) :
    internal_run_vm cd ctx h stdout0 stderr0 =
      (superviseRecv (runUnit cd ctx h) h.recv h.joinOk,
       if (String.join outF).isEmpty then stdout0 else stdout0 ++ [String.join outF],
       if (String.join errF).isEmpty then stderr0 else stderr0 ++ [String.join errF]) := by
  unfold internal_run_vm
  rw [hso, hse]

/-- Computation of runUnit when every setup step succeeds and the entry
function is exported: the shared result buffer is returned with the exit
code derived from the invocation outcome. -/
theorem runUnit_eq_ok (cd : VmCallData) (ctx : RuntimeContext) (h : HostEnv)
    (h1 : h.envBuildOk = true) (h2 : h.importsOk = true)
    (h3 : h.instantiation = .ok ()) (h4 : h.memoryExportOk = true)
    (h5 : h.envInitOk = true)
    (hentry : cd.start_func.getD "_start" ∈ ctx.exports) :
    runUnit cd ctx h = .ok (h.resultBuffer,
      match h.callOutcome with
      | .ok => 0
      | .err none => 0
      | .err (some c) => c) := by
  unfold runUnit
  rw [h1, h2, h3, h4, h5]
  simp [hentry]

/-- Computation of runUnit when every setup step succeeds but the entry
function is not exported. -/
theorem runUnit_missing_entry (cd : VmCallData) (ctx : RuntimeContext) (h : HostEnv)
    (h1 : h.envBuildOk = true) (h2 : h.importsOk = true)
    (h3 : h.instantiation = .ok ()) (h4 : h.memoryExportOk = true)
    (h5 : h.envInitOk = true)
    (hmiss : cd.start_func.getD "_start" ∉ ctx.exports) :
    runUnit cd ctx h = .error .FailedToGetWASMFn := by
  unfold runUnit
  rw [h1, h2, h3, h4, h5]
  simp [hmiss]

/-- C3: for every call whose execution unit returns an outcome with exit
code 0, the exit_message of the envelope is exactly the literal Ok,
regardless of the content of the result bytes. -/
theorem c3_exit_zero_message_ok (cd : VmCallData) (ctx : RuntimeContext) (h : HostEnv)
    (res : List Nat)
    (hr : (internal_run_vm cd ctx h [] []).1 = .ok (res, 0)) :
    (start_runtime cd ctx h).exit_info.exit_message = "Ok" := by
  have ht : internal_run_vm cd ctx h [] [] =
      (Except.ok (res, 0), (internal_run_vm cd ctx h [] []).2) := by
    rw [← hr]
  unfold start_runtime
  rw [ht]
  rfl

/-- Witness for C3: a successful run leaving bytes 1, 2, 3 in the result
buffer still reports the exit message Ok. -/
theorem c3_exit_zero_message_ok_witness :
    (start_runtime cdDefault ctxStart hostBytesOk).exit_info.exit_message = "Ok" :=
  c3_exit_zero_message_ok cdDefault ctxStart hostBytesOk [1, 2, 3] rfl

/-- C4: for every call whose execution unit returns an outcome with a
nonzero exit code, the exit_message of the envelope is the lossy UTF-8
decoding of the recorded result bytes, and is the empty string when no
bytes were recorded before the trap. -/
theorem c4_nonzero_exit_message_lossy (cd : VmCallData) (ctx : RuntimeContext) (h : HostEnv)
    (res : List Nat) (code : Int)
    (hr : (internal_run_vm cd ctx h [] []).1 = .ok (res, code)) (hc : code ≠ 0) :
    (start_runtime cd ctx h).exit_info.exit_message = from_utf8_lossy res ∧
    (res = [] → (start_runtime cd ctx h).exit_info.exit_message = "") := by
  have ht : internal_run_vm cd ctx h [] [] =
      (Except.ok (res, code), (internal_run_vm cd ctx h [] []).2) := by
    rw [← hr]
  unfold start_runtime
  rw [ht]
  constructor
  · simp [assembleResult, hc]
  · intro hres
    subst hres
    simp [assembleResult, hc, from_utf8_lossy_nil]

/-- Witness for C4: a run trapping with exit code 3 after recording the
bytes 104, 105 reports the lossy decoding hi of those bytes. -/
theorem c4_nonzero_exit_message_lossy_witness :
    (start_runtime cdDefault ctxStart hostTrap).exit_info.exit_message =
      from_utf8_lossy [104, 105] ∧
    ([104, 105] = ([] : List Nat) →
      (start_runtime cdDefault ctxStart hostTrap).exit_info.exit_message = "") :=
  c4_nonzero_exit_message_lossy cdDefault ctxStart hostTrap [104, 105] 3 rfl (by decide)

/-- C6: the result field of the envelope is absent exactly when the call
produced a typed error; on a typed error the exit info is derived from the
error kind, and the captured stdout and stderr chunk sequences are still
the ones gathered by the stream capture. -/
theorem c6_result_none_iff_error (cd : VmCallData) (ctx : RuntimeContext) (h : HostEnv) :
    ((start_runtime cd ctx h).result = none ↔
      ∃ e, (internal_run_vm cd ctx h [] []).1 = .error e) ∧
    (∀ e, (internal_run_vm cd ctx h [] []).1 = .error e →
      (start_runtime cd ctx h).exit_info = vmResultStatusToExitInfo e) ∧
    (start_runtime cd ctx h).stdout = (internal_run_vm cd ctx h [] []).2.1 ∧
    (start_runtime cd ctx h).stderr = (internal_run_vm cd ctx h [] []).2.2 := by
  unfold start_runtime
  rcases hE : internal_run_vm cd ctx h [] [] with ⟨r, out, errs⟩
  rcases r with e | ⟨resv, code⟩
  · simp [assembleResult]
  · simp [assembleResult]

/-- Witness for C6: on the timeout error path the envelope has no result
and its exit info is derived from the ExecutionTimeout kind. -/
theorem c6_result_none_iff_error_witness :
    (start_runtime cdDefault ctxStart hostTimeout).result = none ∧
    (start_runtime cdDefault ctxStart hostTimeout).exit_info =
      vmResultStatusToExitInfo .ExecutionTimeout := by
  have hc := c6_result_none_iff_error cdDefault ctxStart hostTimeout
  exact ⟨hc.1.mpr ⟨.ExecutionTimeout, rfl⟩, hc.2.1 .ExecutionTimeout rfl⟩

/-- Counterexample for C2: a run whose entry invocation fails without a
process-exit semantic (as_exit_code yields none) does NOT surface through
the error path; the call completes as a success outcome with exit code 0,
exit message Ok, and a present result, contradicting the claim that such a
failure becomes a typed error. -/
theorem c2_counterexample :
    (start_runtime cdDefault ctxStart hostNoExit).result = some [] ∧
    (start_runtime cdDefault ctxStart hostNoExit).exit_info.exit_code = 0 ∧
    (start_runtime cdDefault ctxStart hostNoExit).exit_info.exit_message = "Ok" :=
  ⟨rfl, rfl, rfl⟩

/-- C2 amended: when the entry invocation fails with a failure carrying no
process-exit semantic, the exit code is left at 0 and the call completes
through the success path as an outcome with exit code 0 and exit message
Ok, carrying the shared result buffer; the failure is not surfaced as a
typed error. -/
theorem c2_no_exit_semantic_success (cd : VmCallData) (ctx : RuntimeContext) (h : HostEnv)
    (h1 : h.envBuildOk = true) (h2 : h.importsOk = true)
    (h3 : h.instantiation = .ok ()) (h4 : h.memoryExportOk = true)
    (h5 : h.envInitOk = true)
    (hentry : cd.start_func.getD "_start" ∈ ctx.exports)
    (hcall : h.callOutcome = .err none)
    (hrecv : h.recv = .received) (hjoin : h.joinOk = true)
    (outF errF : List String)
    (hso : h.stdoutDrain = .ok outF) (hse : h.stderrDrain = .ok errF) :
    runUnit cd ctx h = .ok (h.resultBuffer, 0) ∧
    (start_runtime cd ctx h).result = some h.resultBuffer ∧
    (start_runtime cd ctx h).exit_info.exit_code = 0 ∧
    (start_runtime cd ctx h).exit_info.exit_message = "Ok" := by
  have hu : runUnit cd ctx h = .ok (h.resultBuffer, 0) := by
    rw [runUnit_eq_ok cd ctx h h1 h2 h3 h4 h5 hentry, hcall]
  have ht := internal_run_vm_drains_ok cd ctx h outF errF [] [] hso hse
  rw [hu, hrecv, hjoin] at ht
  simp only [superviseRecv, if_true] at ht
  unfold start_runtime
  rw [ht]
  exact ⟨hu, rfl, rfl, rfl⟩

/-- Witness for C2 amended: the concrete no-exit-semantic failure run
completes as a success with exit code 0. -/
theorem c2_no_exit_semantic_success_witness :
    runUnit cdDefault ctxStart hostNoExit = .ok ([], 0) ∧
    (start_runtime cdDefault ctxStart hostNoExit).result = some [] ∧
    (start_runtime cdDefault ctxStart hostNoExit).exit_info.exit_code = 0 ∧
    (start_runtime cdDefault ctxStart hostNoExit).exit_info.exit_message = "Ok" :=
  c2_no_exit_semantic_success cdDefault ctxStart hostNoExit rfl rfl rfl rfl rfl
    (by decide) rfl rfl rfl [] [] rfl rfl

/-- Counterexample for C5: a guest that flushes the two distinct chunks a
and b to stdout yields the single merged chunk ab in the envelope, not two
distinct chunks, contradicting the claim that distinct flush events are
preserved as distinct chunks. -/
theorem c5_counterexample :
    (start_runtime cdDefault ctxStart hostFlushes).stdout = ["ab"] ∧
    (start_runtime cdDefault ctxStart hostFlushes).stdout ≠ ["a", "b"] :=
  ⟨rfl, by decide⟩

/-- C5 amended: each stream is drained exactly once per call, so all flush
events on stdout (respectively stderr) are concatenated into at most one
chunk: the envelope carries the single concatenated chunk when the drained
buffer is non-empty and no chunk at all when it is empty; in particular
every appended chunk is non-empty. -/
theorem c5_single_merged_chunk (cd : VmCallData) (ctx : RuntimeContext) (h : HostEnv)
    (outF errF : List String)
    (hso : h.stdoutDrain = .ok outF) (hse : h.stderrDrain = .ok errF) :
    (start_runtime cd ctx h).stdout =
      (if (String.join outF).isEmpty then [] else [String.join outF]) ∧
    (start_runtime cd ctx h).stderr =
      (if (String.join errF).isEmpty then [] else [String.join errF]) ∧
    (start_runtime cd ctx h).stdout.length ≤ 1 ∧
    (∀ s ∈ (start_runtime cd ctx h).stdout, s ≠ "") ∧
    (∀ s ∈ (start_runtime cd ctx h).stderr, s ≠ "") := by
  have ht := internal_run_vm_drains_ok cd ctx h outF errF [] [] hso hse
  simp only [List.nil_append] at ht
  unfold start_runtime
  rw [ht]
  have hout : (assembleResult
      (superviseRecv (runUnit cd ctx h) h.recv h.joinOk,
       if (String.join outF).isEmpty then ([] : List String) else [String.join outF],
       if (String.join errF).isEmpty then ([] : List String) else [String.join errF])).stdout =
      (if (String.join outF).isEmpty then [] else [String.join outF]) := by
    rcases superviseRecv (runUnit cd ctx h) h.recv h.joinOk with e | ⟨resv, code⟩ <;>
      simp [assembleResult]
  have herr : (assembleResult
      (superviseRecv (runUnit cd ctx h) h.recv h.joinOk,
       if (String.join outF).isEmpty then ([] : List String) else [String.join outF],
       if (String.join errF).isEmpty then ([] : List String) else [String.join errF])).stderr =
      (if (String.join errF).isEmpty then [] else [String.join errF]) := by
    rcases superviseRecv (runUnit cd ctx h) h.recv h.joinOk with e | ⟨resv, code⟩ <;>
      simp [assembleResult]
  refine ⟨hout, herr, ?_, ?_, ?_⟩
  · rw [hout]
    by_cases hj : (String.join outF).isEmpty <;> simp [hj]
  · rw [hout]
    by_cases hj : (String.join outF).isEmpty <;> simp [hj]
    intro hjoin
    rw [← String.isEmpty_iff] at hjoin
    simp [hj] at hjoin
  · rw [herr]
    by_cases hj : (String.join errF).isEmpty <;> simp [hj]
    intro hjoin
    rw [← String.isEmpty_iff] at hjoin
    simp [hj] at hjoin

/-- Witness for C5 amended: the two stdout flushes a and b surface as the
single non-empty chunk ab, and the empty stderr flush appends nothing. -/
theorem c5_single_merged_chunk_witness :
    (start_runtime cdDefault ctxStart hostFlushes).stdout = ["ab"] ∧
    (start_runtime cdDefault ctxStart hostFlushes).stderr = [] ∧
    (start_runtime cdDefault ctxStart hostFlushes).stdout.length ≤ 1 ∧
    (∀ s ∈ (start_runtime cdDefault ctxStart hostFlushes).stdout, s ≠ "") ∧
    (∀ s ∈ (start_runtime cdDefault ctxStart hostFlushes).stderr, s ≠ "") :=
  c5_single_merged_chunk cdDefault ctxStart hostFlushes ["a", "b"] [""] rfl rfl

/-- Counterexample for C7: a run in which finishing the environment
initialization fails and a run whose entry function is missing surface as
the SAME error kind, FailedToGetWASMFn (runtime.rs maps both the
environment-initialization failure at line 72 and the get_function failure at
line 77 to that variant), contradicting the claim that the two failures
are distinct error kinds. -/
theorem c7_counterexample :
    runUnit cdDefault ctxStart hostEnvInitStepFails = .error .FailedToGetWASMFn ∧
    runUnit cdDefault ctxNoEntry hostOk = .error .FailedToGetWASMFn :=
  ⟨rfl, rfl⟩

/-- C7 amended: failure to finish environment initialization surfaces as
the same error kind as a missing entry function (both map to
FailedToGetWASMFn); only the initial environment-build failure
(WasiEnvInitializeFailure, from the builder finalize step) is an error
kind distinct from the missing-entry-function kind. -/
theorem c7_env_init_same_kind_as_missing_fn (cd : VmCallData) (ctx : RuntimeContext)
    (h : HostEnv)
    (h1 : h.envBuildOk = true) (h2 : h.importsOk = true)
    (h3 : h.instantiation = .ok ()) (h4 : h.memoryExportOk = true) :
    (h.envInitOk = false → runUnit cd ctx h = .error .FailedToGetWASMFn) ∧
    (h.envInitOk = true → cd.start_func.getD "_start" ∉ ctx.exports →
      runUnit cd ctx h = .error .FailedToGetWASMFn) ∧
    VmResultStatus.WasiEnvInitializeFailure ≠ VmResultStatus.FailedToGetWASMFn := by
  refine ⟨?_, ?_, by decide⟩
  · intro h5
    unfold runUnit
    rw [h1, h2, h3, h4, h5]
    simp
  · intro h5 hmiss
    exact runUnit_missing_entry cd ctx h h1 h2 h3 h4 h5 hmiss

/-- Witness for C7 amended: the two concrete failing runs both produce the
error kind FailedToGetWASMFn, which differs from the environment-build
failure kind. -/
theorem c7_env_init_same_kind_as_missing_fn_witness :
    runUnit cdDefault ctxStart hostEnvInitStepFails = .error .FailedToGetWASMFn ∧
    runUnit cdDefault ctxNoEntry hostOk = .error .FailedToGetWASMFn ∧
    VmResultStatus.WasiEnvInitializeFailure ≠ VmResultStatus.FailedToGetWASMFn := by
  have hA := c7_env_init_same_kind_as_missing_fn cdDefault ctxStart hostEnvInitStepFails
    rfl rfl rfl rfl
  have hB := c7_env_init_same_kind_as_missing_fn cdDefault ctxNoEntry hostOk
    rfl rfl rfl rfl
  exact ⟨hA.1 rfl, hB.2.1 rfl (by decide), hA.2.2⟩

/-- C8: for every call naming an entry point that the compiled module does
not export, control never reaches the entry-function invocation, the
envelope has no result, and its exit info is the missing-entry-function
exit info, whose message names the missing WASM function; the embedding
returns this envelope as a plain value, matching the source where the
failure is a returned status rather than an unwound fault. The supervisor
event is the channel disconnect the unit produces by terminating without
sending its one-shot signal. -/
theorem c8_missing_entry_rejected (cd : VmCallData) (ctx : RuntimeContext) (h : HostEnv)
    (h1 : h.envBuildOk = true) (h2 : h.importsOk = true)
    (h3 : h.instantiation = .ok ()) (h4 : h.memoryExportOk = true)
    (h5 : h.envInitOk = true)
    (hmiss : cd.start_func.getD "_start" ∉ ctx.exports)
    (hrecv : h.recv = .disconnected) (hjoin : h.joinOk = true)
    (outF errF : List String)
    (hso : h.stdoutDrain = .ok outF) (hse : h.stderrDrain = .ok errF) :
    unitInvokesEntry cd ctx h = false ∧
    (start_runtime cd ctx h).result = none ∧
    (start_runtime cd ctx h).exit_info = vmResultStatusToExitInfo .FailedToGetWASMFn ∧
    (start_runtime cd ctx h).exit_info.exit_message = "Failed to get the WASM function" := by
  have hu := runUnit_missing_entry cd ctx h h1 h2 h3 h4 h5 hmiss
  have ht := internal_run_vm_drains_ok cd ctx h outF errF [] [] hso hse
  rw [hu, hrecv, hjoin] at ht
  simp only [superviseRecv, if_true] at ht
  have hinv : unitInvokesEntry cd ctx h = false := by
    unfold unitInvokesEntry
    simp [hmiss]
  unfold start_runtime
  rw [ht]
  exact ⟨hinv, rfl, rfl, rfl⟩

/-- Witness for C8: a concrete call whose module exports only other_func
while the default entry point is requested. -/
theorem c8_missing_entry_rejected_witness :
    unitInvokesEntry cdDefault ctxNoEntry hostDisc = false ∧
    (start_runtime cdDefault ctxNoEntry hostDisc).result = none ∧
    (start_runtime cdDefault ctxNoEntry hostDisc).exit_info =
      vmResultStatusToExitInfo .FailedToGetWASMFn ∧
    (start_runtime cdDefault ctxNoEntry hostDisc).exit_info.exit_message =
      "Failed to get the WASM function" :=
  c8_missing_entry_rejected cdDefault ctxNoEntry hostDisc rfl rfl rfl rfl rfl
    (by decide) rfl rfl [] [] rfl rfl

/-- C9: the execution deadline is the single compiled-in constant
100,000,000,000 nanoseconds (one hundred seconds), and the deadline used
for a call does not depend on the call data, the context, or any guest
behavior. -/
theorem c9_deadline_constant :
    dr_timeout_ns = 100 * 1000000000 ∧
    (∀ cd ctx h, deadlineFor cd ctx h = dr_timeout_ns) ∧
    (∀ cd ctx h cd2 ctx2 h2, deadlineFor cd ctx h = deadlineFor cd2 ctx2 h2) :=
  ⟨rfl, fun _ _ _ => rfl, fun _ _ _ _ _ _ => rfl⟩

/-- C10: for every call in which reading the host-facing stdout pipe
fails, internal_run_vm returns the stream-read typed error at once with
both stream sequences unchanged, so the stderr pipe is never drained; the
envelope has no result, an empty stderr sequence, and exit info derived
from the stream-read error kind. -/
theorem c10_stdout_drain_failure (cd : VmCallData) (ctx : RuntimeContext) (h : HostEnv)
    (hfail : h.stdoutDrain = .error ())
    (stdout0 stderr0 : List String) :
    internal_run_vm cd ctx h stdout0 stderr0 =
      (.error .FailedToConvertVMPipeToString, stdout0, stderr0) ∧
    (start_runtime cd ctx h).result = none ∧
    (start_runtime cd ctx h).stderr = [] ∧
    (start_runtime cd ctx h).exit_info =
      vmResultStatusToExitInfo .FailedToConvertVMPipeToString := by
  have hgen : ∀ s0 e0 : List String, internal_run_vm cd ctx h s0 e0 =
      (.error .FailedToConvertVMPipeToString, s0, e0) := by
    intro s0 e0
    unfold internal_run_vm
    rw [hfail]
  have ht0 := hgen [] []
  refine ⟨hgen stdout0 stderr0, ?_, ?_, ?_⟩ <;>
    (unfold start_runtime; rw [ht0]; rfl)

/-- Witness for C10: a concrete run whose stdout pipe read fails while a
chunk is pending on stderr; the stderr sequence stays exactly the one the
caller supplied. -/
theorem c10_stdout_drain_failure_witness :
    internal_run_vm cdDefault ctxStart hostPipeFail ["s0"] ["e0"] =
      (.error .FailedToConvertVMPipeToString, ["s0"], ["e0"]) ∧
    (start_runtime cdDefault ctxStart hostPipeFail).result = none ∧
    (start_runtime cdDefault ctxStart hostPipeFail).stderr = [] ∧
    (start_runtime cdDefault ctxStart hostPipeFail).exit_info =
      vmResultStatusToExitInfo .FailedToConvertVMPipeToString :=
  c10_stdout_drain_failure cdDefault ctxStart hostPipeFail rfl ["s0"] ["e0"]

end SedaVm
